import Mathlib

/-!
Shallow embedding of the SpotifySkipTracker playback-monitoring core
(`src/playback.py`, `src/utils.py`, `src/gui/skipped_tab.py`).

Modelling conventions:
* Timestamps (`time.strftime "%Y-%m-%dT%H:%M:%S"` strings and the `datetime`
  values parsed back from them) are modelled as integers (seconds); the
  format/parse round trip is the identity on monitor-written dates, and
  `timedelta` comparisons are exact integer comparisons of seconds.
* Python floats are modelled as rationals (`ℚ`).
* Python dicts are modelled as association lists in insertion order (a new
  key is appended at the end, updates keep position, `del` removes the
  entry), with unique keys where the source guarantees them.
* The JSON file's contents are modelled as `Option (Option RawStore)`:
  `none` = file absent (`FileNotFoundError`), `some none` = file present but
  unparseable (`json.JSONDecodeError`), `some (some raw)` = parsed contents.
* Network effects are modelled by passing in the environment's responses
  (the recently-played id list; the per-attempt outcomes of the unlike
  HTTP call).  "Unexpected" Python runtime exceptions (the broad
  `except Exception ... raise` arms, which crash the monitor) are outside
  the model; all remaining control flow is total and embedded faithfully.
-/

namespace SpotifySkipTracker

/-- A timestamp in seconds (models the `YYYY-MM-DDTHH:MM:SS` strings). -/
abbrev Timestamp := Int

/-- One value of the skip-count store: the dict
`{"skipped": _, "not_skipped": _, "last_skipped": _, "skipped_dates": _}`.
`skipped_dates := none` models the *absence* of the `"skipped_dates"` key
(the legacy-migration branch of `load_skip_count` omits it); the source
reads it with `.get("skipped_dates", [])` / `.setdefault("skipped_dates", [])`. -/
structure TrackEntry where
  skipped : Nat
  not_skipped : Nat
  last_skipped : Option Timestamp
  skipped_dates : Option (List Timestamp)
  deriving Repr, DecidableEq

/-- The dates list as the source observes it: `data.get("skipped_dates", [])`. -/
def TrackEntry.datesOf (e : TrackEntry) : List Timestamp :=
  e.skipped_dates.getD []

/-- The in-memory skip-count mapping (`self.state.skip_count`), a Python dict
in insertion order. -/
abbrev SkipCount := List (String × TrackEntry)

/-- Dict key lookup. -/
def lookupKey : SkipCount → String → Option TrackEntry
  | [], _ => none
  | p :: rest, tid => if p.1 = tid then some p.2 else lookupKey rest tid

/-- Dict value update in place (`skip_count[tid] = f(skip_count[tid])`);
keeps insertion order, does nothing if the key is absent. -/
def updateKey (sc : SkipCount) (tid : String) (f : TrackEntry → TrackEntry) : SkipCount :=
  sc.map fun p => if p.1 = tid then (p.1, f p.2) else p

/-- Dict key deletion (`del skip_count[tid]`). -/
def eraseKey (sc : SkipCount) (tid : String) : SkipCount :=
  sc.filter fun p => p.1 ≠ tid

/-- Embedding of `dataclass TrackInfo` of `playback.py` (defaults: `None`s, duration 0). -/
structure TrackInfo where
  track_id : Option String
  track_name : Option String
  artist_names : Option String
  duration_ms : Nat
  deriving Repr, DecidableEq

/-- Embedding of `dataclass PlaybackState` of `playback.py`. -/
structure PlaybackState where
  track_order : List String
  skip_count : SkipCount
  last_track_info : TrackInfo
  last_progress : Nat
  deriving Repr, DecidableEq

/-- The fresh state built by `PlaybackState()`'s dataclass defaults. -/
def PlaybackState.init : PlaybackState :=
  { track_order := []
    skip_count := []
    last_track_info := { track_id := none, track_name := none, artist_names := none,
                         duration_ms := 0 }
    last_progress := 0 }

/-- The fields `process_playback` extracts from one playback snapshot dict. -/
structure Snapshot where
  track_id : String
  track_name : String
  artist_names : String
  progress_ms : Nat
  duration_ms : Nat
  deriving Repr, DecidableEq

/-- The configuration values the core reads (already decrypted/parsed):
`SKIP_THRESHOLD` (default 5), the resolved `SKIP_PROGRESS_THRESHOLD`
fraction, and `TIMEFRAME_VALUE`/`TIMEFRAME_UNIT` for the batch sweep. -/
structure MonitorConfig where
  skip_threshold : Nat
  skip_progress_threshold : ℚ
  timeframe_value : Nat
  timeframe_unit : String
  deriving Repr, DecidableEq

/-- A raw configuration value as seen by `float(...)` in
`check_if_skipped_early`: either something `float()` converts to the
rational `q` (ints, floats, numeric strings), or something on which
`float()` raises `TypeError`/`ValueError` (e.g. `None`, a non-numeric
string). -/
inductive ConfigValue where
  | num (q : ℚ)
  | nonNumeric
  deriving Repr, DecidableEq

/-- Python's `float(...)` on a config value. -/
def pyFloat : ConfigValue → Option ℚ
  | .num q => some q
  | .nonNumeric => none

/-- Resolution of `SKIP_PROGRESS_THRESHOLD` in `check_if_skipped_early`
(`utils.py` lines 296-305): `float(config.get("SKIP_PROGRESS_THRESHOLD", 0.42))`,
falling back to `0.42` exactly when `float()` raises.  `none` models an
absent key (the `.get` default applies). -/
def skipProgressThresholdOf (v : Option ConfigValue) : ℚ :=
  match pyFloat (v.getD (.num (0.42 : ℚ))) with
  | some q => q
  | none => (0.42 : ℚ)

/-- Embedding of `check_if_skipped_early` (`utils.py` lines 307-313), with the threshold
already resolved.  The source tests `duration_ms <= 2 * 60 * 1000` but both
branches return the same expression. -/
def check_if_skipped_early (progress_ms duration_ms : Nat) (thr : ℚ) : Bool :=
  if duration_ms ≤ 2 * 60 * 1000 then
    decide ((progress_ms : ℚ) < (duration_ms : ℚ) * thr)
  else
    decide ((progress_ms : ℚ) < (duration_ms : ℚ) * thr)

/-- Outcome of one attempt of the DELETE request inside `unlike_song`:
a 200 response, a non-200 response, or a `requests` network exception
(the latter two are logged and retried). -/
inductive UnlikeAttempt where
  | ok
  | httpFail
  | netErr
  deriving Repr, DecidableEq

/-- The retry loop of `unlike_song` (`utils.py` lines 316-361): attempts
bounded by `retries`; returns at the first 200 response.  The return value
records whether a 200 was obtained.  Crucially, after exhausting the
attempts the function logs and RETURNS NORMALLY — it raises nothing for
ordinary HTTP/network failures.  Attempts beyond the supplied response list
are failures. -/
def unlike_song_go : Nat → List UnlikeAttempt → Bool
  | 0, _ => false
  | Nat.succ _, [] => false
  | Nat.succ n, r :: rest =>
    match r with
    | .ok => true
    | .httpFail => unlike_song_go n rest
    | .netErr => unlike_song_go n rest

/-- Embedding of `unlike_song` with its default `retries = 3`. -/
def unlike_song (responses : List UnlikeAttempt) : Bool :=
  unlike_song_go 3 responses

/-- Python truthiness of the `Optional[str]` track id
(`if self.state.last_track_info.track_id:`): `None` and `""` are falsy. -/
def truthyId : Option String → Bool
  | none => false
  | some s => !(s == "")

/-- Embedding of `_handle_skipped_track` (`playback.py` lines 333-405).
If the previous track id is falsy, the whole update block and the unlike
block are skipped.  Indexing `skip_count[last_track_id]` on a missing key
raises `KeyError`, caught by the `except KeyError: return` arm — state
unchanged.  Otherwise: append the current time to `skipped_dates`
(`setdefault("skipped_dates", [])`), increment `skipped`, set
`last_skipped`; then if `skipped >= SKIP_THRESHOLD`, call `unlike_song` and
delete the entry.  `unlike_song` returns normally even when every attempt
failed, so the deletion is unconditional once the threshold branch is
taken.  The final `save_skip_count` call does not change in-memory state. -/
def handle_skipped_track (st : PlaybackState) (cfg : MonitorConfig) (now : Timestamp)
    (unlikeResponses : List UnlikeAttempt) : PlaybackState :=
  match st.last_track_info.track_id with
  | none => st
  | some tid =>
    if tid = "" then st
    else
      match lookupKey st.skip_count tid with
      | none => st
      | some e =>
        let e2 : TrackEntry :=
          { skipped := e.skipped + 1
            not_skipped := e.not_skipped
            last_skipped := some now
            skipped_dates := some (e.datesOf ++ [now]) }
        let sc1 := updateKey st.skip_count tid fun _ => e2
        let sc2 :=
          if cfg.skip_threshold ≤ e2.skipped then
            let _ := unlike_song unlikeResponses
            eraseKey sc1 tid
          else sc1
        { st with skip_count := sc2 }

/-- Embedding of `_handle_forward_skip` (`playback.py` lines 229-277), `track_id` being
the NEW track's id.  If the new id is in recently-played, nothing happens.
Otherwise the track being LEFT is classified via `check_if_skipped_early`
on `last_progress` / `last_track_info.duration_ms`; the skipped branch
updates the previous track's entry, while the not-skipped branch executes
`skip_count[track_id]["not_skipped"] += 1` — on the NEW track's id (the
entry exists: `_initialize_skip_count_for_track` ran just before). -/
def handle_forward_skip (st : PlaybackState) (track_id : String)
    (recently_played : List String) (cfg : MonitorConfig) (now : Timestamp)
    (unlikeResponses : List UnlikeAttempt) : PlaybackState :=
  if track_id ∈ recently_played then st
  else if check_if_skipped_early st.last_progress st.last_track_info.duration_ms
      cfg.skip_progress_threshold then
    handle_skipped_track st cfg now unlikeResponses
  else
    { st with
      skip_count := updateKey st.skip_count track_id
        fun e => { e with not_skipped := e.not_skipped + 1 } }

/-- Embedding of the track-entry creation helper of `playback.py` lines 207-220: insert
a zeroed entry (with an explicit empty `skipped_dates` list) if absent. -/
def init_skip_count_for_track (st : PlaybackState) (track_id : String) : PlaybackState :=
  if (lookupKey st.skip_count track_id).isSome then st
  else
    { st with
      skip_count := st.skip_count ++
        [(track_id, { skipped := 0, not_skipped := 0, last_skipped := none,
                      skipped_dates := some [] })] }

/-- Embedding of `_update_track_order` (`playback.py` lines 407-420): append, then pop the
front if the length exceeds 5. -/
def update_track_order (ord : List String) (track_id : String) : List String :=
  let ord2 := ord ++ [track_id]
  if 5 < ord2.length then ord2.tail else ord2

/-- Embedding of `_update_track_info` (`playback.py` lines 285-307): update the order
buffer and replace `last_track_info` with the new track's details. -/
def update_track_info (st : PlaybackState) (snap : Snapshot) : PlaybackState :=
  { st with
    track_order := update_track_order st.track_order snap.track_id
    last_track_info :=
      { track_id := some snap.track_id
        track_name := some snap.track_name
        artist_names := some snap.artist_names
        duration_ms := snap.duration_ms } }

/-- Embedding of `process_playback` (`playback.py` lines 164-205).  Same-track ticks only
refresh `last_progress`.  On a track change: ensure an entry for the new
id; if the new id is not in `track_order`, run the forward-skip analysis
(with the recently-played ids fetched from the environment); finally update
`track_order`/`last_track_info` and set `last_progress` to the new
snapshot's progress. -/
def process_playback (st : PlaybackState) (snap : Snapshot)
    (recently_played : List String) (cfg : MonitorConfig) (now : Timestamp)
    (unlikeResponses : List UnlikeAttempt) : PlaybackState :=
  if some snap.track_id = st.last_track_info.track_id then
    { st with last_progress := snap.progress_ms }
  else
    let st1 := init_skip_count_for_track st snap.track_id
    let st2 :=
      if snap.track_id ∈ st1.track_order then st1
      else handle_forward_skip st1 snap.track_id recently_played cfg now unlikeResponses
    let st3 := update_track_info st2 snap
    { st3 with last_progress := snap.progress_ms }

/-- One value of the skip-count JSON file: either a legacy bare integer or a
structured record. -/
inductive RawEntry where
  | legacy (count : Nat)
  | structured (e : TrackEntry)
  deriving Repr, DecidableEq

/-- The parsed contents of `skip_count.json`. -/
abbrev RawStore := List (String × RawEntry)

/-- The legacy-migration step of `load_skip_count` (`utils.py` lines
223-229): a bare integer becomes `{"skipped": count, "not_skipped": 0,
"last_skipped": None}` — note: no `"skipped_dates"` key. -/
def migrateEntry : RawEntry → TrackEntry
  | .legacy n =>
    { skipped := n, not_skipped := 0, last_skipped := none, skipped_dates := none }
  | .structured e => e

/-- Migrate every entry of the raw store. -/
def migrateStore (raw : RawStore) : SkipCount :=
  raw.map fun p => (p.1, migrateEntry p.2)

/-- The sort relation of `load_skip_count`: descending by `"skipped"`
(`sorted(..., key=lambda item: item[1]["skipped"], reverse=True)`). -/
def skipGE (a b : String × TrackEntry) : Prop :=
  b.2.skipped ≤ a.2.skipped

instance : DecidableRel skipGE := fun a b => Nat.decLe b.2.skipped a.2.skipped

instance : IsTotal (String × TrackEntry) skipGE :=
  ⟨fun a b => Nat.le_total b.2.skipped a.2.skipped⟩

instance : IsTrans (String × TrackEntry) skipGE :=
  ⟨fun _ _ _ hab hbc => le_trans hbc hab⟩

/-- The stable descending sort of `load_skip_count`.  Python's `sorted` is a
stable sort; `List.insertionSort` is the stable sort on the same relation,
so the two agree on every input. -/
def sortStore (sc : SkipCount) : SkipCount :=
  List.insertionSort skipGE sc

/-- Serialisation back to file shape (`save_skip_count` writes the
structured records). -/
def toRaw (sc : SkipCount) : RawStore :=
  sc.map fun p => (p.1, RawEntry.structured p.2)

/-- Embedding of `load_skip_count` (`utils.py` lines 212-248) as a function of the file
contents: a missing file (`FileNotFoundError`) yields the empty mapping; an
unparseable file (`json.JSONDecodeError`) raises; otherwise the store is
migrated, sorted descending by skip count, persisted, and returned. -/
def load_skip_count (file : Option (Option RawStore)) : Except Unit SkipCount :=
  match file with
  | none => .ok []
  | some none => .error ()
  | some (some raw) => .ok (sortStore (migrateStore raw))

/-- Embedding of the monitor-startup store load of `playback.py` lines 113-126: uses
`load_skip_count`; its own `FileNotFoundError` arm recovers with `{}` (dead
code, `load_skip_count` already returns `{}` there) and the
`json.JSONDecodeError` arm logs critical and re-raises. -/
def init_skip_count (file : Option (Option RawStore)) : Except Unit SkipCount :=
  match load_skip_count file with
  | .ok sc => .ok sc
  | .error e => .error e

/-- The timeframe window of `SkippedTab.refresh` (`skipped_tab.py` lines
186-195) in seconds: days/weeks via `timedelta`, months approximated as 30
days, years as 365 days, any other unit treated as days. -/
def timeframeDelta (value : Nat) (unit : String) : Int :=
  if unit = "days" then 86400 * (value : Int)
  else if unit = "weeks" then 604800 * (value : Int)
  else if unit = "months" then 86400 * (30 * (value : Int))
  else if unit = "years" then 86400 * (365 * (value : Int))
  else 86400 * (value : Int)

/-- The windowed skip count of `SkippedTab.refresh` (lines 209-220): the
number of `skipped_dates` entries with `now - date <= delta`. -/
def recentSkipCount (now delta : Timestamp) (e : TrackEntry) : Nat :=
  ((e.datesOf.filter fun d => decide (now - d ≤ delta))).length

/-- The threshold-and-delete pass of `SkippedTab.refresh` (lines 206-236)
over an already-loaded store: collect the ids whose windowed count meets
`SKIP_THRESHOLD`, unlike each (the call's outcome does not alter control
flow, see `unlike_song`) and delete it from the mapping.  Returns the
updated mapping and the unliked ids. -/
def sweepCore (sc : SkipCount) (cfg : MonitorConfig) (now : Timestamp) :
    SkipCount × List String :=
  let delta := timeframeDelta cfg.timeframe_value cfg.timeframe_unit
  let tracks_to_unlike :=
    (sc.filter fun p => decide (cfg.skip_threshold ≤ recentSkipCount now delta p.2)).map
      Prod.fst
  let sc2 := tracks_to_unlike.foldl (fun acc tid => eraseKey acc tid) sc
  (sc2, tracks_to_unlike)

/-- Embedding of `SkippedTab.refresh` (lines 167-271) acting on the stats file: load
(which migrates, sorts, and writes the sorted store back), sweep, and — only
when something was unliked — save the updated mapping.  Returns the file
contents after the run and the list of unliked ids. -/
def refresh (raw : RawStore) (cfg : MonitorConfig) (now : Timestamp) :
    RawStore × List String :=
  let sc := sortStore (migrateStore raw)
  let r := sweepCore sc cfg now
  (if r.2.isEmpty then toRaw sc else toRaw r.1, r.2)

/-- One monitor operation on the shared store: a polling tick that passed
the is-playing/context gate (with the environment's recently-played list,
config, wall-clock time and unlike responses), or a batch-sweep refresh.
The sweep reads the store through `load_skip_count` (sorting it) and writes
back the swept mapping. -/
inductive MonitorEvent where
  | tick (snap : Snapshot) (recently_played : List String) (cfg : MonitorConfig)
      (now : Timestamp) (unlikeResponses : List UnlikeAttempt)
  | sweep (cfg : MonitorConfig) (now : Timestamp)
  deriving Repr

/-- Apply one monitor operation. -/
def runEvent (st : PlaybackState) : MonitorEvent → PlaybackState
  | .tick snap rp cfg now resp => process_playback st snap rp cfg now resp
  | .sweep cfg now =>
    { st with skip_count := (sweepCore (sortStore st.skip_count) cfg now).1 }

/-- Apply a sequence of monitor operations. -/
def runEvents (st : PlaybackState) (evs : List MonitorEvent) : PlaybackState :=
  evs.foldl runEvent st

/-- The spec's store invariant: every entry's `skipped` counter equals the
length of its `skipped_dates` list (an absent key read as `[]`). -/
def StoreInv (sc : SkipCount) : Prop :=
  ∀ p ∈ sc, p.2.skipped = p.2.datesOf.length

instance (sc : SkipCount) : Decidable (StoreInv sc) :=
  List.decidableBAll _ sc

/-! ### Helper lemmas about the embedded definitions -/

/-- With a zero duration the early-skip predicate is false for every
progress value and every threshold. -/
theorem check_zero_duration_false (progress : Nat) (thr : ℚ) :
    check_if_skipped_early progress 0 thr = false := by
  simp [check_if_skipped_early]

theorem lookupKey_mem {sc : SkipCount} {tid : String} {e : TrackEntry}
    (h : lookupKey sc tid = some e) : (tid, e) ∈ sc := by
  induction sc with
  | nil => simp [lookupKey] at h
  | cons p rest ih =>
    obtain ⟨a, b⟩ := p
    rw [lookupKey] at h
    split at h
    · next h1 =>
      have he := Option.some.inj h
      subst he
      subst h1
      simp
    · exact List.mem_cons_of_mem _ (ih h)

theorem lookupKey_eq_none {sc : SkipCount} {tid : String} :
    lookupKey sc tid = none ↔ ∀ p ∈ sc, p.1 ≠ tid := by
  induction sc with
  | nil => simp [lookupKey]
  | cons p rest ih =>
    rw [lookupKey]
    by_cases h1 : p.1 = tid
    · simp [h1]
    · simp [h1, ih]

theorem mem_eraseKey {sc : SkipCount} {tid : String} {p : String × TrackEntry} :
    p ∈ eraseKey sc tid ↔ p ∈ sc ∧ p.1 ≠ tid := by
  simp [eraseKey, List.mem_filter]

theorem mem_foldl_eraseKey {l : List String} {sc : SkipCount} {p : String × TrackEntry} :
    p ∈ l.foldl (fun acc tid => eraseKey acc tid) sc ↔ p ∈ sc ∧ p.1 ∉ l := by
  induction l generalizing sc with
  | nil => simp
  | cons t ts ih =>
    rw [List.foldl_cons, ih]
    simp [mem_eraseKey, List.mem_cons]
    tauto

theorem nodup_keys_val_eq {sc : SkipCount} {k : String} {a b : TrackEntry}
    (hnd : (sc.map Prod.fst).Nodup) (ha : (k, a) ∈ sc) (hb : (k, b) ∈ sc) : a = b := by
  induction sc with
  | nil => simp at ha
  | cons p rest ih =>
    rw [List.map_cons, List.nodup_cons] at hnd
    rcases List.mem_cons.1 ha with ha1 | ha1 <;> rcases List.mem_cons.1 hb with hb1 | hb1
    · exact (Prod.ext_iff.1 (ha1.trans hb1.symm)).2
    · exfalso
      exact hnd.1 (ha1 ▸ (List.mem_map.2 ⟨(k, b), hb1, rfl⟩))
    · exfalso
      exact hnd.1 (hb1 ▸ (List.mem_map.2 ⟨(k, a), ha1, rfl⟩))
    · exact ih hnd.2 ha1 hb1

/-! ### Claim theorems -/

/-- C4: for all `(progress, duration, threshold)` with
`0 ≤ progress ≤ duration` and `0 < threshold < 1`, the early-skip predicate
returns true exactly when `progress < duration * threshold`; the
single proportional rule applies regardless of track length (the
sub-two-minute branch of the source returns the same expression). -/
theorem c4_early_skip_iff_progress_lt_fraction
    (progress duration : Nat) (thr : ℚ)
    (hpd : progress ≤ duration) (h0 : 0 < thr) (h1 : thr < 1) :
    check_if_skipped_early progress duration thr = true ↔
      (progress : ℚ) < (duration : ℚ) * thr := by
  unfold check_if_skipped_early
  split <;> simp

/-- Witness for C4 at `progress = 3`, `duration = 10`, `threshold = 1/2`. -/
theorem c4_early_skip_iff_progress_lt_fraction_witness :
    check_if_skipped_early 3 10 (1 / 2 : ℚ) = true ↔
      ((3 : Nat) : ℚ) < ((10 : Nat) : ℚ) * (1 / 2 : ℚ) :=
  c4_early_skip_iff_progress_lt_fraction 3 10 (1 / 2)
    (by norm_num) (by norm_num) (by norm_num)

/-- C5, counterexample: the configured value `1.5` is numeric but outside
the valid range `(0.0, 1.0)`; the claim says the predicate then uses the
default `0.42`, but the resolution keeps `1.5` unchanged (the source only
falls back to the default when `float()` raises — there is no range
check). -/
theorem c5_out_of_range_threshold_used_unchanged :
    skipProgressThresholdOf (some (ConfigValue.num (3 / 2))) = 3 / 2 ∧
      ¬ ((3 / 2 : ℚ) < 1) ∧ (3 / 2 : ℚ) ≠ (0.42 : ℚ) :=
  ⟨rfl, by norm_num, by norm_num⟩

/-- C5, amended: a non-numeric configured skip-progress-threshold (or an
absent key) resolves to the default `0.42`; every value `float()` accepts —
including out-of-range numeric values — is used unchanged. -/
theorem c5_threshold_resolution (q : ℚ) :
    skipProgressThresholdOf (some (ConfigValue.num q)) = q ∧
    skipProgressThresholdOf (some ConfigValue.nonNumeric) = (0.42 : ℚ) ∧
    skipProgressThresholdOf none = (0.42 : ℚ) :=
  ⟨rfl, rfl, rfl⟩

/-- C7: loading the skip-count store returns the empty mapping without
raising when the file is missing, and raises when the file exists but is
not parseable JSON. -/
theorem c7_load_missing_vs_corrupt :
    load_skip_count none = Except.ok ([] : SkipCount) ∧
      load_skip_count (some none) = Except.error () ∧
      init_skip_count none = Except.ok ([] : SkipCount) ∧
      init_skip_count (some none) = Except.error () :=
  ⟨rfl, rfl, rfl, rfl⟩

/-- C10: the early-skip predicate is false whenever the duration is zero,
for every progress value and threshold; in particular the freshly
constructed `PlaybackState` has `last_track_info.duration_ms = 0`, so the
first transition after monitor start is never classified as an early skip:
after processing any first snapshot from the initial state, every stored
entry still has `skipped = 0` and no `last_skipped` time. -/
theorem c10_zero_duration_never_early_skip
    (progress : Nat) (thr : ℚ) (snap : Snapshot) (rp : List String)
    (cfg : MonitorConfig) (now : Timestamp) (resp : List UnlikeAttempt) :
    check_if_skipped_early progress PlaybackState.init.last_track_info.duration_ms thr
        = false ∧
    ∀ p ∈ (process_playback PlaybackState.init snap rp cfg now resp).skip_count,
      p.2.skipped = 0 ∧ p.2.last_skipped = none := by
  refine ⟨check_zero_duration_false progress thr, ?_⟩
  intro p hp
  by_cases hrp : snap.track_id ∈ rp <;>
    simp [process_playback, PlaybackState.init, init_skip_count_for_track, lookupKey,
      handle_forward_skip, check_zero_duration_false, update_track_info, updateKey,
      hrp] at hp <;>
    simp [hp]

/-- C1 (code bug): mid-session, the previous track T1 (duration 200000 ms)
was left at progress 150000 ms (75%, above the 0.42 threshold) and playback
moved to T2, which is neither in `track_order` nor in recently-played.  The
classification is "not skipped early", but the source executes
`skip_count[track_id]["not_skipped"] += 1` with `track_id` bound to the NEW
track: T2's `not_skipped` becomes 1 while T1's counters are untouched — the
opposite attribution of the spec's scenario B. -/
theorem c1_not_skipped_attributed_to_new_track :
    lookupKey (process_playback
      { track_order := ["T1"]
        skip_count := [("T1",
          { skipped := 0, not_skipped := 0, last_skipped := none, skipped_dates := some [] })]
        last_track_info :=
          { track_id := some "T1", track_name := some "Song One",
            artist_names := some "Artist", duration_ms := 200000 }
        last_progress := 150000 }
      { track_id := "T2", track_name := "Song Two", artist_names := "Artist",
        progress_ms := 0, duration_ms := 180000 }
      [] { skip_threshold := 5, skip_progress_threshold := 0.42,
           timeframe_value := 1, timeframe_unit := "weeks" } 1000 []).skip_count "T1"
      = some { skipped := 0, not_skipped := 0, last_skipped := none,
               skipped_dates := some [] } ∧
    lookupKey (process_playback
      { track_order := ["T1"]
        skip_count := [("T1",
          { skipped := 0, not_skipped := 0, last_skipped := none, skipped_dates := some [] })]
        last_track_info :=
          { track_id := some "T1", track_name := some "Song One",
            artist_names := some "Artist", duration_ms := 200000 }
        last_progress := 150000 }
      { track_id := "T2", track_name := "Song Two", artist_names := "Artist",
        progress_ms := 0, duration_ms := 180000 }
      [] { skip_threshold := 5, skip_progress_threshold := 0.42,
           timeframe_value := 1, timeframe_unit := "weeks" } 1000 []).skip_count "T2"
      = some { skipped := 0, not_skipped := 1, last_skipped := none,
               skipped_dates := some [] } := by
  have hcheck : check_if_skipped_early 150000 200000 (0.42 : ℚ) = false := by
    norm_num [check_if_skipped_early]
  constructor <;>
    simp [process_playback, init_skip_count_for_track, lookupKey, handle_forward_skip,
      hcheck, update_track_info, update_track_order, updateKey]

/-- C2 (code bug): track T1 already has `skipped = 4` with threshold 5; a
fifth qualifying skip is recorded while every one of the three unlike
attempts fails with a network error.  `unlike_song` swallows those failures
and returns normally (first conjunct: no attempt succeeded), so the caller
falls through to `del skip_count[track_id]` and T1's entry is deleted from
the store even though the unlike was never confirmed. -/
theorem c2_failed_unlike_still_deletes_entry :
    unlike_song [UnlikeAttempt.netErr, UnlikeAttempt.netErr, UnlikeAttempt.netErr]
        = false ∧
    (handle_skipped_track
      { track_order := ["T0", "T1"]
        skip_count := [("T1",
          { skipped := 4, not_skipped := 0, last_skipped := some 40,
            skipped_dates := some [10, 20, 30, 40] })]
        last_track_info :=
          { track_id := some "T1", track_name := some "Song One",
            artist_names := some "Artist", duration_ms := 200000 }
        last_progress := 30000 }
      { skip_threshold := 5, skip_progress_threshold := 0.42,
        timeframe_value := 1, timeframe_unit := "weeks" } 50
      [UnlikeAttempt.netErr, UnlikeAttempt.netErr, UnlikeAttempt.netErr]).skip_count
      = [] := by
  constructor <;> rfl

/-! ### Store-invariant preservation (C3) -/

theorem storeInv_updateKey {sc : SkipCount} {tid : String} {f : TrackEntry → TrackEntry}
    (h : StoreInv sc)
    (hf : ∀ e : TrackEntry,
      e.skipped = e.datesOf.length → (f e).skipped = (f e).datesOf.length) :
    StoreInv (updateKey sc tid f) := by
  intro p hp
  rcases List.mem_map.1 hp with ⟨q, hq, rfl⟩
  by_cases h1 : q.1 = tid
  · simp only [h1, if_pos rfl]
    exact hf q.2 (h q hq)
  · simp only [if_neg h1]
    exact h q hq

theorem storeInv_eraseKey {sc : SkipCount} {tid : String} (h : StoreInv sc) :
    StoreInv (eraseKey sc tid) := fun p hp => h p (mem_eraseKey.1 hp).1

theorem storeInv_handle_skipped_track {st : PlaybackState} {cfg : MonitorConfig}
    {now : Timestamp} {resp : List UnlikeAttempt} (h : StoreInv st.skip_count) :
    StoreInv (handle_skipped_track st cfg now resp).skip_count := by
  unfold handle_skipped_track
  cases htid : st.last_track_info.track_id with
  | none => exact h
  | some tid =>
    by_cases hempty : tid = ""
    · simp only [if_pos hempty]
      exact h
    · simp only [if_neg hempty]
      cases hl : lookupKey st.skip_count tid with
      | none => exact h
      | some e =>
        have hinv : e.skipped = e.datesOf.length := h _ (lookupKey_mem hl)
        have h1 : StoreInv (updateKey st.skip_count tid fun _ =>
            { skipped := e.skipped + 1, not_skipped := e.not_skipped,
              last_skipped := some now,
              skipped_dates := some (e.datesOf ++ [now]) }) := by
          refine storeInv_updateKey h fun e2 _ => ?_
          simp [TrackEntry.datesOf, hinv]
        dsimp only
        split
        · exact storeInv_eraseKey h1
        · exact h1

theorem storeInv_handle_forward_skip {st : PlaybackState} {track_id : String}
    {rp : List String} {cfg : MonitorConfig} {now : Timestamp}
    {resp : List UnlikeAttempt} (h : StoreInv st.skip_count) :
    StoreInv (handle_forward_skip st track_id rp cfg now resp).skip_count := by
  unfold handle_forward_skip
  split
  · exact h
  split
  · exact storeInv_handle_skipped_track h
  · dsimp only
    refine storeInv_updateKey h fun e he => ?_
    simpa [TrackEntry.datesOf] using he

theorem storeInv_init_skip_count_for_track {st : PlaybackState} {track_id : String}
    (h : StoreInv st.skip_count) :
    StoreInv (init_skip_count_for_track st track_id).skip_count := by
  unfold init_skip_count_for_track
  split
  · exact h
  · intro p hp
    rcases List.mem_append.1 hp with hp1 | hp1
    · exact h p hp1
    · rcases List.mem_singleton.1 hp1 with rfl
      simp [TrackEntry.datesOf]

theorem storeInv_process_playback {st : PlaybackState} {snap : Snapshot}
    {rp : List String} {cfg : MonitorConfig} {now : Timestamp}
    {resp : List UnlikeAttempt} (h : StoreInv st.skip_count) :
    StoreInv (process_playback st snap rp cfg now resp).skip_count := by
  unfold process_playback
  split
  · exact h
  · dsimp only [update_track_info]
    split
    · exact storeInv_init_skip_count_for_track h
    · exact storeInv_handle_forward_skip (storeInv_init_skip_count_for_track h)

theorem storeInv_sortStore {sc : SkipCount} (h : StoreInv sc) : StoreInv (sortStore sc) :=
  fun p hp => h p ((List.mem_insertionSort skipGE).1 hp)

theorem storeInv_sweepCore {sc : SkipCount} {cfg : MonitorConfig} {now : Timestamp}
    (h : StoreInv sc) : StoreInv (sweepCore sc cfg now).1 :=
  fun p hp => h p (mem_foldl_eraseKey.1 hp).1

theorem storeInv_runEvent {st : PlaybackState} {ev : MonitorEvent}
    (h : StoreInv st.skip_count) : StoreInv (runEvent st ev).skip_count := by
  cases ev with
  | tick snap rp cfg now resp => exact storeInv_process_playback h
  | sweep cfg now => exact storeInv_sweepCore (storeInv_sortStore h)

/-- C3, counterexample: loading a store holding the legacy bare-integer
entry `{"T1": 3}` migrates it to `skipped = 3` with no `skipped_dates` key
at all, so the invariant `skipped == length(skipped_dates)` fails right
after this monitor operation (3 ≠ 0). -/
theorem c3_legacy_migration_breaks_invariant :
    load_skip_count (some (some [("T1", RawEntry.legacy 3)])) =
      Except.ok [("T1", { skipped := 3, not_skipped := 0, last_skipped := none,
                          skipped_dates := none })] ∧
    ¬ StoreInv [("T1", { skipped := 3, not_skipped := 0, last_skipped := none,
                         skipped_dates := none })] := by
  refine ⟨rfl, fun h => ?_⟩
  exact absurd (h ("T1",
      { skipped := 3, not_skipped := 0, last_skipped := none, skipped_dates := none })
      (List.mem_singleton.2 rfl))
    (by decide)

/-- C3, amended: the invariant `skipped == length(skipped_dates)` is
preserved by every sequence of monitor operations (polling ticks — which
create zeroed entries, record skips and non-skips, and unlike — and batch
sweeps), provided it holds of the starting store; in particular it holds
forever when monitoring starts from an empty or fully-structured store.
It is *not* restored by loading legacy bare-integer entries (see the
counterexample), so the source's claim holds only away from
legacy-migrated entries. -/
theorem c3_store_invariant_preserved (evs : List MonitorEvent) (st : PlaybackState)
    (h : StoreInv st.skip_count) : StoreInv (runEvents st evs).skip_count := by
  induction evs generalizing st with
  | nil => exact h
  | cons ev rest ih => exact ih _ (storeInv_runEvent h)

/-- Witness for C3 at a concrete three-event run from the fresh state:
a tick for T1, a tick for T2 (recording an early skip of T1), and a sweep. -/
theorem c3_store_invariant_preserved_witness :
    StoreInv (runEvents PlaybackState.init
      [MonitorEvent.tick
        { track_id := "T1", track_name := "a", artist_names := "b",
          progress_ms := 0, duration_ms := 200000 } []
        { skip_threshold := 5, skip_progress_threshold := 0.42,
          timeframe_value := 1, timeframe_unit := "weeks" } 0 [],
       MonitorEvent.tick
        { track_id := "T2", track_name := "c", artist_names := "d",
          progress_ms := 0, duration_ms := 200000 } []
        { skip_threshold := 5, skip_progress_threshold := 0.42,
          timeframe_value := 1, timeframe_unit := "weeks" } 5 [],
       MonitorEvent.sweep
        { skip_threshold := 5, skip_progress_threshold := 0.42,
          timeframe_value := 1, timeframe_unit := "weeks" } 10]).skip_count :=
  c3_store_invariant_preserved _ _ (by intro p hp; simp [PlaybackState.init] at hp)

/-! ### Track-order lemmas (C8) -/

theorem tail_append_singleton {α : Type} {l : List α} (h : l ≠ []) (x : α) :
    (l ++ [x]).tail = l.tail ++ [x] := by
  cases l with
  | nil => exact absurd rfl h
  | cons a rest => rfl

theorem track_order_handle_skipped_track (st : PlaybackState) (cfg : MonitorConfig)
    (now : Timestamp) (resp : List UnlikeAttempt) :
    (handle_skipped_track st cfg now resp).track_order = st.track_order := by
  unfold handle_skipped_track
  split
  · rfl
  split
  · rfl
  split
  · rfl
  · rfl

theorem track_order_handle_forward_skip (st : PlaybackState) (track_id : String)
    (rp : List String) (cfg : MonitorConfig) (now : Timestamp)
    (resp : List UnlikeAttempt) :
    (handle_forward_skip st track_id rp cfg now resp).track_order = st.track_order := by
  unfold handle_forward_skip
  split
  · rfl
  split
  · exact track_order_handle_skipped_track st cfg now resp
  · rfl

theorem track_order_init_skip_count_for_track (st : PlaybackState) (track_id : String) :
    (init_skip_count_for_track st track_id).track_order = st.track_order := by
  unfold init_skip_count_for_track
  split <;> rfl

theorem track_order_process_playback (st : PlaybackState) (snap : Snapshot)
    (rp : List String) (cfg : MonitorConfig) (now : Timestamp)
    (resp : List UnlikeAttempt) :
    (process_playback st snap rp cfg now resp).track_order =
      if some snap.track_id = st.last_track_info.track_id then st.track_order
      else update_track_order st.track_order snap.track_id := by
  unfold process_playback
  split
  · rfl
  · dsimp only [update_track_info]
    split
    · rw [track_order_init_skip_count_for_track]
    · rw [track_order_handle_forward_skip, track_order_init_skip_count_for_track]

/-- C8, counterexample: from the fresh state, ticks for T1, T2, then T1
again (each new id also present in the recently-played page, so no
classification runs) leave `track_order = ["T1", "T2", "T1"]`: the buffer
holds a repeated identifier, refuting the claimed pairwise-distinctness
("last 5 *distinct* track identifiers"). -/
theorem c8_track_order_duplicates :
    (runEvents PlaybackState.init
      [MonitorEvent.tick
        { track_id := "T1", track_name := "a", artist_names := "b",
          progress_ms := 0, duration_ms := 200000 } ["T1"]
        { skip_threshold := 5, skip_progress_threshold := 1 / 2,
          timeframe_value := 1, timeframe_unit := "weeks" } 0 [],
       MonitorEvent.tick
        { track_id := "T2", track_name := "c", artist_names := "d",
          progress_ms := 0, duration_ms := 200000 } ["T2"]
        { skip_threshold := 5, skip_progress_threshold := 1 / 2,
          timeframe_value := 1, timeframe_unit := "weeks" } 1 [],
       MonitorEvent.tick
        { track_id := "T1", track_name := "a", artist_names := "b",
          progress_ms := 0, duration_ms := 200000 } ["T1"]
        { skip_threshold := 5, skip_progress_threshold := 1 / 2,
          timeframe_value := 1, timeframe_unit := "weeks" } 2 []]).track_order
      = ["T1", "T2", "T1"] ∧
    ¬ (runEvents PlaybackState.init
      [MonitorEvent.tick
        { track_id := "T1", track_name := "a", artist_names := "b",
          progress_ms := 0, duration_ms := 200000 } ["T1"]
        { skip_threshold := 5, skip_progress_threshold := 1 / 2,
          timeframe_value := 1, timeframe_unit := "weeks" } 0 [],
       MonitorEvent.tick
        { track_id := "T2", track_name := "c", artist_names := "d",
          progress_ms := 0, duration_ms := 200000 } ["T2"]
        { skip_threshold := 5, skip_progress_threshold := 1 / 2,
          timeframe_value := 1, timeframe_unit := "weeks" } 1 [],
       MonitorEvent.tick
        { track_id := "T1", track_name := "a", artist_names := "b",
          progress_ms := 0, duration_ms := 200000 } ["T1"]
        { skip_threshold := 5, skip_progress_threshold := 1 / 2,
          timeframe_value := 1, timeframe_unit := "weeks" } 2 []]).track_order.Nodup := by
  constructor
  · rfl
  · decide

/-- C8, amended: after every monitor operation the `track_order` buffer
holds at most 5 entries, and pushing onto a full buffer evicts the oldest
entry (FIFO) while pushing onto a non-full buffer appends; the entries are
NOT necessarily pairwise distinct — a transition to a track id that is
already in the buffer appends it again (see the counterexample). -/
theorem c8_track_order_bounded_fifo (st : PlaybackState) (snap : Snapshot)
    (rp : List String) (cfg : MonitorConfig) (now : Timestamp)
    (resp : List UnlikeAttempt) (hlen : st.track_order.length ≤ 5) :
    (process_playback st snap rp cfg now resp).track_order.length ≤ 5 ∧
    (some snap.track_id ≠ st.last_track_info.track_id →
      (st.track_order.length = 5 →
        (process_playback st snap rp cfg now resp).track_order =
          st.track_order.tail ++ [snap.track_id]) ∧
      (st.track_order.length < 5 →
        (process_playback st snap rp cfg now resp).track_order =
          st.track_order ++ [snap.track_id])) := by
  rw [track_order_process_playback]
  by_cases hsame : some snap.track_id = st.last_track_info.track_id
  · rw [if_pos hsame]
    exact ⟨hlen, fun hne => absurd hsame hne⟩
  · rw [if_neg hsame]
    unfold update_track_order
    rcases Nat.lt_or_ge st.track_order.length 5 with hlt | hge
    · have hnot : ¬ 5 < (st.track_order ++ [snap.track_id]).length := by
        rw [List.length_append, List.length_singleton]
        omega
      rw [if_neg hnot]
      refine ⟨?_, fun _ => ⟨fun h5 => absurd h5 (Nat.ne_of_lt hlt), fun _ => rfl⟩⟩
      rw [List.length_append, List.length_singleton]
      omega
    · have h5 : st.track_order.length = 5 := le_antisymm hlen hge
      have hgt : 5 < (st.track_order ++ [snap.track_id]).length := by
        rw [List.length_append, List.length_singleton, h5]
        omega
      have hne : st.track_order ≠ [] :=
        List.ne_nil_of_length_pos (by omega)
      rw [if_pos hgt, tail_append_singleton hne]
      refine ⟨?_, fun _ => ⟨fun _ => rfl, fun hlt5 => absurd h5 (Nat.ne_of_lt hlt5)⟩⟩
      rw [List.length_append, List.length_singleton, List.length_tail]
      omega

/-- Witness for C8: pushing "F" onto the full buffer
`["A", "B", "C", "D", "E"]` keeps the length at 5 and evicts "A". -/
theorem c8_track_order_bounded_fifo_witness :
    (process_playback
      { track_order := ["A", "B", "C", "D", "E"]
        skip_count := []
        last_track_info :=
          { track_id := some "E", track_name := some "e", artist_names := some "e",
            duration_ms := 200000 }
        last_progress := 0 }
      { track_id := "F", track_name := "f", artist_names := "f",
        progress_ms := 0, duration_ms := 200000 } ["F"]
      { skip_threshold := 5, skip_progress_threshold := 1 / 2,
        timeframe_value := 1, timeframe_unit := "weeks" } 0 []).track_order.length ≤ 5 ∧
    (some "F" ≠ some "E" →
      ((["A", "B", "C", "D", "E"] : List String).length = 5 →
        (process_playback
          { track_order := ["A", "B", "C", "D", "E"]
            skip_count := []
            last_track_info :=
              { track_id := some "E", track_name := some "e", artist_names := some "e",
                duration_ms := 200000 }
            last_progress := 0 }
          { track_id := "F", track_name := "f", artist_names := "f",
            progress_ms := 0, duration_ms := 200000 } ["F"]
          { skip_threshold := 5, skip_progress_threshold := 1 / 2,
            timeframe_value := 1, timeframe_unit := "weeks" } 0 []).track_order =
          (["A", "B", "C", "D", "E"] : List String).tail ++ ["F"]) ∧
      ((["A", "B", "C", "D", "E"] : List String).length < 5 →
        (process_playback
          { track_order := ["A", "B", "C", "D", "E"]
            skip_count := []
            last_track_info :=
              { track_id := some "E", track_name := some "e", artist_names := some "e",
                duration_ms := 200000 }
            last_progress := 0 }
          { track_id := "F", track_name := "f", artist_names := "f",
            progress_ms := 0, duration_ms := 200000 } ["F"]
          { skip_threshold := 5, skip_progress_threshold := 1 / 2,
            timeframe_value := 1, timeframe_unit := "weeks" } 0 []).track_order =
          ["A", "B", "C", "D", "E"] ++ ["F"])) :=
  c8_track_order_bounded_fifo
    { track_order := ["A", "B", "C", "D", "E"]
      skip_count := []
      last_track_info :=
        { track_id := some "E", track_name := some "e", artist_names := some "e",
          duration_ms := 200000 }
      last_progress := 0 }
    { track_id := "F", track_name := "f", artist_names := "f",
      progress_ms := 0, duration_ms := 200000 } ["F"]
    { skip_threshold := 5, skip_progress_threshold := 1 / 2,
      timeframe_value := 1, timeframe_unit := "weeks" } 0 [] (by decide)

/-! ### Batch-sweep lemmas (C6, C9) -/

theorem sweepCore_snd (sc : SkipCount) (cfg : MonitorConfig) (now : Timestamp) :
    (sweepCore sc cfg now).2 =
      (sc.filter fun p => decide (cfg.skip_threshold ≤
        recentSkipCount now (timeframeDelta cfg.timeframe_value cfg.timeframe_unit)
          p.2)).map Prod.fst := rfl

theorem sweepCore_fst (sc : SkipCount) (cfg : MonitorConfig) (now : Timestamp) :
    (sweepCore sc cfg now).1 =
      ((sweepCore sc cfg now).2).foldl (fun acc tid => eraseKey acc tid) sc := rfl

theorem mem_sweepCore_snd {sc : SkipCount} {cfg : MonitorConfig} {now : Timestamp}
    {tid : String} :
    tid ∈ (sweepCore sc cfg now).2 ↔
      ∃ q ∈ sc, q.1 = tid ∧ cfg.skip_threshold ≤
        recentSkipCount now (timeframeDelta cfg.timeframe_value cfg.timeframe_unit) q.2 := by
  rw [sweepCore_snd]
  simp only [List.mem_map, List.mem_filter, decide_eq_true_eq]
  constructor
  · rintro ⟨q, ⟨hq, hcnt⟩, rfl⟩
    exact ⟨q, hq, rfl, hcnt⟩
  · rintro ⟨q, hq, rfl, hcnt⟩
    exact ⟨q, ⟨hq, hcnt⟩, rfl⟩

theorem mem_sweepCore_fst {sc : SkipCount} {cfg : MonitorConfig} {now : Timestamp}
    {p : String × TrackEntry} :
    p ∈ (sweepCore sc cfg now).1 ↔ p ∈ sc ∧ p.1 ∉ (sweepCore sc cfg now).2 := by
  rw [sweepCore_fst]
  exact mem_foldl_eraseKey

/-- C6: in the batch sweep, the number of `skipped_dates` timestamps inside
the trailing window (`timeframeDelta`: days, weeks, months as 30 days,
years as 365 days, unknown units as days) decides unliking.  For a track in
the loaded store (with unique keys): with exactly `threshold - 1` in-window
skips it is never unliked and its entry is kept; with exactly `threshold`
in-window skips it is unliked and its entry is removed from the store. -/
theorem c6_sweep_threshold_boundary
    (sc : SkipCount) (cfg : MonitorConfig) (now : Timestamp)
    (tid : String) (e : TrackEntry)
    (hmem : (tid, e) ∈ sc) (hnodup : (sc.map Prod.fst).Nodup)
    (hthr : 1 ≤ cfg.skip_threshold) :
    (recentSkipCount now (timeframeDelta cfg.timeframe_value cfg.timeframe_unit) e
        = cfg.skip_threshold - 1 →
      tid ∉ (sweepCore sc cfg now).2 ∧ (tid, e) ∈ (sweepCore sc cfg now).1) ∧
    (recentSkipCount now (timeframeDelta cfg.timeframe_value cfg.timeframe_unit) e
        = cfg.skip_threshold →
      tid ∈ (sweepCore sc cfg now).2 ∧ lookupKey (sweepCore sc cfg now).1 tid = none) := by
  constructor
  · intro hc
    have hnot : tid ∉ (sweepCore sc cfg now).2 := by
      rw [mem_sweepCore_snd]
      rintro ⟨⟨t, q2⟩, hq, rfl, hcnt⟩
      dsimp only at hcnt
      have hval : q2 = e := nodup_keys_val_eq hnodup hq hmem
      subst hval
      omega
    exact ⟨hnot, mem_sweepCore_fst.2 ⟨hmem, hnot⟩⟩
  · intro hc
    have hin : tid ∈ (sweepCore sc cfg now).2 :=
      mem_sweepCore_snd.2 ⟨(tid, e), hmem, rfl, le_of_eq hc.symm⟩
    refine ⟨hin, lookupKey_eq_none.2 fun p hp hkey => ?_⟩
    exact (mem_sweepCore_fst.1 hp).2 (hkey ▸ hin)

/-- Concrete two-track store for the C6 witness: with threshold 5 and a
one-day window at `now = 100000`, track "A" has 4 in-window skips and track
"B" has 5. -/
def demoEntryA : TrackEntry :=
  { skipped := 4, not_skipped := 0, last_skipped := some 99993,
    skipped_dates := some [99990, 99991, 99992, 99993] }

/-- Second entry of the C6 witness store (5 in-window skips). -/
def demoEntryB : TrackEntry :=
  { skipped := 5, not_skipped := 0, last_skipped := some 99994,
    skipped_dates := some [99990, 99991, 99992, 99993, 99994] }

/-- Config for the C6 witness: threshold 5, one-day window. -/
def demoCfg : MonitorConfig :=
  { skip_threshold := 5, skip_progress_threshold := 1 / 2,
    timeframe_value := 1, timeframe_unit := "days" }

/-- The C6 witness store. -/
def demoStore : SkipCount := [("A", demoEntryA), ("B", demoEntryB)]

/-- Witness for C6: on `demoStore` at `now = 100000`, "A" (4 in-window
skips, threshold - 1) is kept and not unliked; "B" (5 in-window skips,
exactly threshold) is unliked and removed. -/
theorem c6_sweep_threshold_boundary_witness :
    ("A" ∉ (sweepCore demoStore demoCfg 100000).2 ∧
      ("A", demoEntryA) ∈ (sweepCore demoStore demoCfg 100000).1) ∧
    ("B" ∈ (sweepCore demoStore demoCfg 100000).2 ∧
      lookupKey (sweepCore demoStore demoCfg 100000).1 "B" = none) :=
  ⟨(c6_sweep_threshold_boundary demoStore demoCfg 100000 "A" demoEntryA
      (by decide) (by decide) (by decide)).1 (by decide),
   (c6_sweep_threshold_boundary demoStore demoCfg 100000 "B" demoEntryB
      (by decide) (by decide) (by decide)).2 (by decide)⟩

theorem migrate_toRaw (sc : SkipCount) : migrateStore (toRaw sc) = sc := by
  induction sc with
  | nil => rfl
  | cons p rest ih =>
    simp only [toRaw, migrateStore, List.map_cons, migrateEntry] at *
    rw [ih]

theorem sorted_foldl_eraseKey {l : List String} {sc : SkipCount}
    (h : List.Sorted skipGE sc) :
    List.Sorted skipGE (l.foldl (fun acc tid => eraseKey acc tid) sc) := by
  induction l generalizing sc with
  | nil => exact h
  | cons t ts ih =>
    rw [List.foldl_cons]
    exact ih (List.Pairwise.filter _ h)

theorem filter_window_anti (l : List Timestamp) (delta : Int) {n1 n2 : Timestamp}
    (h : n1 ≤ n2) :
    (l.filter fun d => decide (n2 - d ≤ delta)).length ≤
      (l.filter fun d => decide (n1 - d ≤ delta)).length := by
  induction l with
  | nil => simp
  | cons d ds ih =>
    rw [List.filter_cons, List.filter_cons]
    by_cases h2 : n2 - d ≤ delta
    · have h1 : n1 - d ≤ delta := le_trans (sub_le_sub_right h d) h2
      rw [if_pos (by simpa using h2), if_pos (by simpa using h1),
        List.length_cons, List.length_cons]
      exact Nat.succ_le_succ ih
    · by_cases h1 : n1 - d ≤ delta
      · rw [if_neg (by simpa using h2), if_pos (by simpa using h1), List.length_cons]
        exact le_trans ih (Nat.le_succ _)
      · rw [if_neg (by simpa using h2), if_neg (by simpa using h1)]
        exact ih

theorem recentSkipCount_anti {n1 n2 : Timestamp} (delta : Int) (e : TrackEntry)
    (h : n1 ≤ n2) : recentSkipCount n2 delta e ≤ recentSkipCount n1 delta e :=
  filter_window_anti e.datesOf delta h

theorem refresh_fst (raw : RawStore) (cfg : MonitorConfig) (now : Timestamp) :
    (refresh raw cfg now).1 =
      toRaw (sweepCore (sortStore (migrateStore raw)) cfg now).1 := by
  unfold refresh
  dsimp only
  split
  · next hE =>
    have h2 : (sweepCore (sortStore (migrateStore raw)) cfg now).2 = [] :=
      List.isEmpty_iff.mp hE
    rw [sweepCore_fst, h2]
    rfl
  · rfl

theorem refresh_snd (raw : RawStore) (cfg : MonitorConfig) (now : Timestamp) :
    (refresh raw cfg now).2 = (sweepCore (sortStore (migrateStore raw)) cfg now).2 := rfl

/-- C9: the batch sweep is idempotent: if the sweep runs at `now1` and then
again at any `now2 ≥ now1` with no skips recorded in between, the second
run unlikes nothing and leaves the stored stats file exactly as the first
run wrote it. -/
theorem c9_sweep_idempotent (raw : RawStore) (cfg : MonitorConfig)
    (now1 now2 : Timestamp) (h : now1 ≤ now2) :
    (refresh (refresh raw cfg now1).1 cfg now2).2 = [] ∧
    (refresh (refresh raw cfg now1).1 cfg now2).1 = (refresh raw cfg now1).1 := by
  have hf1 : (refresh raw cfg now1).1 =
      toRaw (sweepCore (sortStore (migrateStore raw)) cfg now1).1 :=
    refresh_fst raw cfg now1
  have hm : migrateStore (toRaw (sweepCore (sortStore (migrateStore raw)) cfg now1).1) =
      (sweepCore (sortStore (migrateStore raw)) cfg now1).1 :=
    migrate_toRaw _
  have hsorted : List.Sorted skipGE (sweepCore (sortStore (migrateStore raw)) cfg now1).1 := by
    rw [sweepCore_fst]
    exact sorted_foldl_eraseKey (List.sorted_insertionSort skipGE _)
  have hsort : sortStore (sweepCore (sortStore (migrateStore raw)) cfg now1).1 =
      (sweepCore (sortStore (migrateStore raw)) cfg now1).1 :=
    hsorted.insertionSort_eq
  have hlow : ∀ p ∈ (sweepCore (sortStore (migrateStore raw)) cfg now1).1,
      ¬ (cfg.skip_threshold ≤ recentSkipCount now2
        (timeframeDelta cfg.timeframe_value cfg.timeframe_unit) p.2) := by
    intro p hp hcnt
    rcases mem_sweepCore_fst.1 hp with ⟨hpsc, hpnot⟩
    have hcnt1 : cfg.skip_threshold ≤ recentSkipCount now1
        (timeframeDelta cfg.timeframe_value cfg.timeframe_unit) p.2 :=
      le_trans hcnt (recentSkipCount_anti _ _ h)
    exact hpnot (mem_sweepCore_snd.2 ⟨p, hpsc, rfl, hcnt1⟩)
  have hU2 : (sweepCore (sweepCore (sortStore (migrateStore raw)) cfg now1).1 cfg now2).2
      = [] := by
    rw [sweepCore_snd]
    rw [List.filter_eq_nil_iff.2 fun p hp => by simpa using hlow p hp]
    rfl
  constructor
  · rw [refresh_snd, hf1, hm, hsort]
    exact hU2
  · rw [refresh_fst, hf1, hm, hsort, sweepCore_fst, hU2]
    rfl

/-- Witness for C9: a concrete store with one over-threshold track, swept at
`now1 = 100000` and again at `now2 = 200000`. -/
theorem c9_sweep_idempotent_witness :
    (refresh (refresh
      [("A", RawEntry.structured
        { skipped := 5, not_skipped := 0, last_skipped := some 99994,
          skipped_dates := some [99990, 99991, 99992, 99993, 99994] }),
       ("B", RawEntry.legacy 2)]
      { skip_threshold := 5, skip_progress_threshold := 1 / 2,
        timeframe_value := 1, timeframe_unit := "days" } 100000).1
      { skip_threshold := 5, skip_progress_threshold := 1 / 2,
        timeframe_value := 1, timeframe_unit := "days" } 200000).2 = [] ∧
    (refresh (refresh
      [("A", RawEntry.structured
        { skipped := 5, not_skipped := 0, last_skipped := some 99994,
          skipped_dates := some [99990, 99991, 99992, 99993, 99994] }),
       ("B", RawEntry.legacy 2)]
      { skip_threshold := 5, skip_progress_threshold := 1 / 2,
        timeframe_value := 1, timeframe_unit := "days" } 100000).1
      { skip_threshold := 5, skip_progress_threshold := 1 / 2,
        timeframe_value := 1, timeframe_unit := "days" } 200000).1 =
    (refresh
      [("A", RawEntry.structured
        { skipped := 5, not_skipped := 0, last_skipped := some 99994,
          skipped_dates := some [99990, 99991, 99992, 99993, 99994] }),
       ("B", RawEntry.legacy 2)]
      { skip_threshold := 5, skip_progress_threshold := 1 / 2,
        timeframe_value := 1, timeframe_unit := "days" } 100000).1 :=
  c9_sweep_idempotent _ _ 100000 200000 (by decide)

/-- Witness for C10: instantiating the zero-duration property at
progress 123 ms with threshold 1/2. -/
theorem c10_zero_duration_never_early_skip_witness :
    check_if_skipped_early 123 PlaybackState.init.last_track_info.duration_ms (1 / 2 : ℚ)
      = false :=
  (c10_zero_duration_never_early_skip 123 (1 / 2)
    { track_id := "T1", track_name := "n", artist_names := "a",
      progress_ms := 0, duration_ms := 200000 } []
    { skip_threshold := 5, skip_progress_threshold := 1 / 2,
      timeframe_value := 1, timeframe_unit := "days" } 0 []).1

end SpotifySkipTracker
